import Mathlib

/-!
Shallow embedding of the LetsCycleToRecycle service layer (src/services.py,
src/db.py): the intake transaction `register_device_with_order` and the
public lookup `get_device_by_mac`, together with the relational store they
run against (tables Employee, Customer, RecyclingOrder, Device, OrdLine and
the three Oracle sequences).

Modelling conventions:
- The Oracle store is a `DB` value: one list per table plus the last value
  issued by each sequence and a fixed SYSDATE.
- `cur.execute` sites that can raise are driven by a `Faults` record; a set
  flag means that statement raises. Rollback restores the table rows of the
  pre-transaction store but keeps sequence values already consumed, matching
  Oracle sequence semantics.
- Python floats are modelled as rationals; `float(s)` is modelled for plain
  decimal literals (optional sign, digits, optional fractional part), which
  covers every weight the workflow handles; other accepted Python spellings
  (exponents, inf/nan) are outside the modelled input space.
- Connection handling is made observable through `connOpened`/`connClosed`
  flags on each operation so the resource-release discipline can be stated.
-/

namespace LetsCycle

/-- One row of the Customer table. -/
structure Customer where
  custNo : Nat
  custFirstName : String
  custLastName : String
  custEmail : String
deriving Repr, DecidableEq

/-- One row of the RecyclingOrder table (OrdDate held as an abstract day number). -/
structure RecyclingOrder where
  ordNo : Nat
  ordDate : Nat
  custNo : Nat
  empNo : Nat
  dropOffSite : String
deriving Repr, DecidableEq

/-- One row of the Device table. -/
structure Device where
  deviceID : Nat
  deviceType : String
  make : String
  model : String
  serialNo : String
  qrCode : String
  iotMacAddr : String
  hazardClass : String
  weightKg : ℚ
  status : String
  origCustNo : Nat
deriving Repr, DecidableEq

/-- One row of the OrdLine table. -/
structure OrdLine where
  ordNo : Nat
  lineNo : Nat
  deviceID : Nat
  actionCode : String
  qty : Nat
  notes : String
deriving Repr, DecidableEq

/-- The relational store: the five tables (Employee rows are (EmpNo, EmpEmail)
pairs, read-only here), the last value issued by each sequence, and SYSDATE. -/
structure DB where
  employees : List (Nat × String)
  customers : List Customer
  orders : List RecyclingOrder
  devices : List Device
  ordLines : List OrdLine
  seqCustomer : Nat
  seqOrder : Nat
  seqDevice : Nat
  sysdate : Nat
deriving Repr, DecidableEq

/-- A submitted HTML form: the fields present, as key/value pairs. -/
def FormData := List (String × String)

/-- Python `dict.get(key, dflt)`: the stored value when the key is present
(even when blank), the fallback only when the key is absent. -/
def FormData.get (form : FormData) (key dflt : String) : String :=
  match List.lookup key form with
  | some v => v
  | none => dflt

/-- Python `str.strip()` on the character list: drop leading and trailing
whitespace. -/
def trimChars (l : List Char) : List Char :=
  ((l.dropWhile Char.isWhitespace).reverse.dropWhile Char.isWhitespace).reverse

/-- Python `str.strip()`. -/
def strip (s : String) : String := String.mk (trimChars s.data)

/-- Worker for `splitWs`: `cur` holds the current token reversed. -/
def splitWsAux (cur : List Char) (acc : List String) : List Char → List String
  | [] => if cur.isEmpty then acc.reverse else (String.mk cur.reverse :: acc).reverse
  | c :: cs =>
    if c.isWhitespace then
      if cur.isEmpty then splitWsAux [] acc cs
      else splitWsAux [] (String.mk cur.reverse :: acc) cs
    else splitWsAux (c :: cur) acc cs

/-- Python `str.split()` with no argument: split on whitespace runs, never
producing empty tokens. -/
def splitWs (s : String) : List String := splitWsAux [] [] s.data

/-- Python `" ".join(l)`. -/
def joinSpace : List String → String
  | [] => ""
  | [s] => s
  | s :: rest => s ++ " " ++ joinSpace rest

/-- `_split_customer_name` (services.py): strip, split on whitespace;
no token gives two empty strings, one token gives an empty last name,
otherwise first token and the rest rejoined with single spaces. -/
def split_customer_name (fullName : String) : String × String :=
  match splitWs (strip fullName) with
  | [] => ("", "")
  | [p] => (p, "")
  | p :: rest => (p, joinSpace rest)

/-- Digit-string value, `none` when any character is not a decimal digit. -/
def digitsToNat (acc : Nat) : List Char → Option Nat
  | [] => some acc
  | c :: cs => if c.isDigit then digitsToNat (acc * 10 + (c.toNat - 48)) cs else none

/-- Model of Python `float(s)` on plain decimal literals: optional sign,
then digits with an optional single point; anything else raises ValueError,
modelled as `none`. -/
def parseFloatLit (s : String) : Option ℚ :=
  let signBody : Bool × List Char :=
    match s.data with
    | '-' :: rest => (true, rest)
    | '+' :: rest => (false, rest)
    | l => (false, l)
  let neg := signBody.1
  let body := signBody.2
  let intPart := body.takeWhile (fun c => c ≠ '.')
  let rest := body.dropWhile (fun c => c ≠ '.')
  match rest with
  | [] =>
    if intPart.isEmpty then none
    else (digitsToNat 0 intPart).map (fun n =>
      mkRat (if neg then -(n : Int) else (n : Int)) 1)
  | _ :: fracPart =>
    if intPart.isEmpty && fracPart.isEmpty then none
    else
      match digitsToNat 0 intPart, digitsToNat 0 fracPart with
      | some ip, some fp =>
        let num : Int := ((ip * 10 ^ fracPart.length + fp : Nat) : Int)
        some (mkRat (if neg then -num else num) (10 ^ fracPart.length))
      | _, _ => none

/-- `_parse_weight` (services.py): strip; empty gives the default; otherwise
`float(value)`, with ValueError caught and mapped to the default. -/
def parse_weight (value : String) (dflt : ℚ) : ℚ :=
  let v := strip value
  if v = "" then dflt
  else
    match parseFloatLit v with
    | some q => q
    | none => dflt

/-- `_generate_qr_for_mac` (services.py): the artifact name is
`<device_id>.png`; rendering and saving the PNG is an external effect whose
failure is injected by the `qrFails` fault flag at the call site. -/
def generate_qr_for_mac (_macAddr : String) (deviceId : String) : String :=
  deviceId ++ ".png"

/-- The normalized form fields computed at the top of
`register_device_with_order` (services.py lines 171-188), including the
Unknown/Customer placeholders applied after the name split. -/
structure NormForm where
  mac_addr : String
  device_type : String
  make : String
  model : String
  serial_no : String
  customer_name : String
  customer_email : String
  dropoff_site : String
  status : String
  notes : String
  hazard_class : String
  weight_kg : ℚ
  cust_first : String
  cust_last : String
deriving Repr, DecidableEq

/-- Field extraction and normalization of `register_device_with_order`. -/
def normalizeForm (form : FormData) : NormForm :=
  let customer_name := strip (form.get "customer_name" "")
  let p := split_customer_name customer_name
  { mac_addr := strip (form.get "mac_address" "")
    device_type := strip (form.get "device_type" "")
    make := strip (form.get "make" "")
    model := strip (form.get "model" "")
    serial_no := strip (form.get "serial_no" "")
    customer_name := customer_name
    customer_email := strip (form.get "customer_email" "")
    dropoff_site := strip (form.get "dropoff_site" "Main Facility")
    status := strip (form.get "status" "Received")
    notes := strip (form.get "notes" "")
    hazard_class := strip (form.get "hazard_class" "Medium")
    weight_kg := parse_weight (form.get "weight_kg" "1.0") 1
    cust_first := if p.1 = "" then "Unknown" else p.1
    cust_last := if p.2 = "" then "Customer" else p.2 }

/-- `SELECT EmpNo FROM Employee WHERE EmpEmail = :email` with `fetchone`:
the first matching row. -/
def findEmp : List (Nat × String) → String → Option Nat
  | [], _ => none
  | e :: rest, u => if e.2 = u then some e.1 else findEmp rest u

/-- `SELECT CustNo FROM Customer WHERE CustEmail = :email` with `fetchone`:
the first matching row. -/
def findCustByEmail : List Customer → String → Option Nat
  | [], _ => none
  | c :: rest, e => if c.custEmail = e then some c.custNo else findCustByEmail rest e

/-- Fault-injection switches: each flag makes the corresponding store call
(or the QR artifact generation) raise when reached. -/
structure Faults where
  connectFails : Bool
  failEmpSelect : Bool
  failCustSelect : Bool
  failSeqCustomer : Bool
  failInsertCustomer : Bool
  failSeqOrder : Bool
  failInsertOrder : Bool
  failSeqDevice : Bool
  qrFails : Bool
  failInsertDevice : Bool
  failInsertOrdLine : Bool
  failCommit : Bool
deriving Repr, DecidableEq

/-- The fault-free run: every store call and the QR generation succeed. -/
def noFaults : Faults :=
  ⟨false, false, false, false, false, false, false, false, false, false, false, false⟩

/-- The dictionary returned by a successful `register_device_with_order`. -/
structure RegSuccess where
  device_id : Nat
  qr_filename : String
  mac_addr : String
deriving Repr, DecidableEq

/-- Outcome of the intake: the returned dictionary, or the propagated error. -/
inductive RegResult where
  | ok (value : RegSuccess)
  | error (msg : String)
deriving Repr, DecidableEq

/-- Observable outcome of one intake call: result, resulting store, and
whether the Oracle connection was opened and explicitly closed. -/
structure RegOut where
  result : RegResult
  db : DB
  connOpened : Bool
  connClosed : Bool

/-- Step 1 of the intake (services.py lines 211-240): reuse the customer by
email when the email is non-empty and matches, otherwise draw
`seq_customer.NEXTVAL` and insert a new Customer row. Errors carry the store
as it stands at the raise (sequence values already consumed stay consumed). -/
def resolveCustomer (cust_first cust_last customer_email : String) (f : Faults)
    (db0 : DB) : Except (String × DB) (Nat × DB) :=
  if customer_email ≠ "" ∧ f.failCustSelect = true then .error ("store", db0)
  else
    match (if customer_email ≠ "" then findCustByEmail db0.customers customer_email else none) with
    | some k => .ok (k, db0)
    | none =>
      if f.failSeqCustomer then .error ("store", db0)
      else
        let k := db0.seqCustomer + 1
        let db1 := { db0 with seqCustomer := k }
        if f.failInsertCustomer then .error ("store", db1)
        else .ok (k, { db1 with customers := db1.customers ++ [⟨k, cust_first, cust_last, customer_email⟩] })

/-- Steps 2-4 and the commit of the intake (services.py lines 242-320): insert
RecyclingOrder, generate the QR artifact, insert Device, insert OrdLine,
commit. Errors carry the store as it stands at the raise. -/
def registerTail (n : NormForm) (emp_no cust_no : Nat) (f : Faults) (dbc : DB) :
    Except (String × DB) (RegSuccess × DB) :=
  if f.failSeqOrder then .error ("store", dbc)
  else
    let ord_no := dbc.seqOrder + 1
    let db3 := { dbc with seqOrder := ord_no }
    if f.failInsertOrder then .error ("store", db3)
    else
      let db4 := { db3 with orders := db3.orders ++ [⟨ord_no, db3.sysdate, cust_no, emp_no, n.dropoff_site⟩] }
      if f.failSeqDevice then .error ("store", db4)
      else
        let device_id := db4.seqDevice + 1
        let db5 := { db4 with seqDevice := device_id }
        if f.qrFails then .error ("qr", db5)
        else
          let qr_filename := generate_qr_for_mac n.mac_addr (toString device_id)
          if f.failInsertDevice then .error ("store", db5)
          else
            let db6 := { db5 with devices := db5.devices ++
              [⟨device_id, n.device_type, n.make, n.model, n.serial_no, qr_filename,
                n.mac_addr, n.hazard_class, n.weight_kg, n.status, cust_no⟩] }
            if f.failInsertOrdLine then .error ("store", db6)
            else
              let db7 := { db6 with ordLines := db6.ordLines ++
                [⟨ord_no, 1, device_id, "Recycle", 1, n.notes⟩] }
              if f.failCommit then .error ("store", db7)
              else .ok (⟨device_id, qr_filename, n.mac_addr⟩, db7)

/-- Rollback of the unit of work: table rows revert to the pre-transaction
store, sequence values already consumed stay consumed. -/
def restoreRows (db0 d : DB) : DB :=
  { db0 with seqCustomer := d.seqCustomer, seqOrder := d.seqOrder, seqDevice := d.seqDevice }

/-- The body of the try block of `register_device_with_order`: employee
lookup, customer resolution, then the order/device/line inserts and commit. -/
def registerAttempt (n : NormForm) (employee_username : String) (f : Faults)
    (db0 : DB) : Except (String × DB) (RegSuccess × DB) :=
  if f.failEmpSelect then .error ("store", db0)
  else
    match findEmp db0.employees employee_username with
    | none => .error ("No Employee found for username " ++ employee_username, db0)
    | some emp_no =>
      match resolveCustomer n.cust_first n.cust_last n.customer_email f db0 with
      | .error e => .error e
      | .ok (cust_no, dbc) => registerTail n emp_no cust_no f dbc

/-- `register_device_with_order` (services.py lines 156-329): normalize the
form, look up the employee, resolve the customer, insert order, device and
order line, commit; on any exception roll back and propagate the error; the
`finally` block closes the connection on every path after it was opened. -/
def register_device_with_order (form : FormData) (employee_username : String)
    (f : Faults) (db0 : DB) : RegOut :=
  let n := normalizeForm form
  if f.connectFails then
    { result := .error "connect", db := db0, connOpened := false, connClosed := false }
  else
    match registerAttempt n employee_username f db0 with
    | .error (msg, d) =>
      { result := .error msg, db := restoreRows db0 d, connOpened := true, connClosed := true }
    | .ok (s, d) =>
      { result := .ok s, db := d, connOpened := true, connClosed := true }

/-- The dictionary returned to the template by a successful lookup. -/
structure DeviceView where
  type : String
  make : String
  model : String
  serial_no : String
  hazard_class : String
  weight_kg : ℚ
  status : String
  dropoff_site : String
  received_date : Nat
  customer_name : String
  timeline : List (String × String)
deriving Repr, DecidableEq

/-- The fixed four-stage narrative attached to every lookup result. -/
def fixedTimeline : List (String × String) :=
  [("Received", "Device received at LetsCycleToRecycle center"),
   ("Under Recycle Check", "Technician inspecting components"),
   ("In Laboratory", "Hazardous materials being processed"),
   ("Recycled", "Metals recovered and logged")]

/-- Result rows of the lookup SELECT: Device joined to OrdLine,
RecyclingOrder and Customer, restricted to the given MAC address. -/
def joinRows (db : DB) (mac : String) : List (Device × RecyclingOrder × Customer) :=
  (db.devices.filter (fun d => d.iotMacAddr = mac)).flatMap (fun d =>
    (db.ordLines.filter (fun ol => ol.deviceID = d.deviceID)).flatMap (fun ol =>
      (db.orders.filter (fun r => r.ordNo = ol.ordNo)).flatMap (fun r =>
        (db.customers.filter (fun c => c.custNo = r.custNo)).map (fun c => (d, r, c)))))

/-- The view composed from the first fetched row. -/
def mkView (d : Device) (r : RecyclingOrder) (c : Customer) : DeviceView :=
  { type := d.deviceType
    make := d.make
    model := d.model
    serial_no := d.serialNo
    hazard_class := d.hazardClass
    weight_kg := d.weightKg
    status := d.status
    dropoff_site := r.dropOffSite
    received_date := r.ordDate
    customer_name := c.custFirstName ++ " " ++ c.custLastName
    timeline := fixedTimeline }

/-- Observable outcome of one lookup call: the result, whether the SELECT was
issued, and whether the connection was opened and explicitly closed. -/
structure LookupOut where
  result : Option DeviceView
  queried : Bool
  connOpened : Bool
  connClosed : Bool
deriving Repr, DecidableEq

/-- `get_device_by_mac` (services.py lines 85-149): strip the MAC; empty
input returns None before touching the store; otherwise connect and run the
join; the blanket `except` turns any store error into None. When the SELECT
raises after the connection was opened, the `conn.close()` statements are
never reached. -/
def get_device_by_mac (macAddr : String) (db : DB)
    (connectFails storeFails : Bool) : LookupOut :=
  let mac := strip macAddr
  if mac = "" then
    { result := none, queried := false, connOpened := false, connClosed := false }
  else if connectFails then
    { result := none, queried := false, connOpened := false, connClosed := false }
  else if storeFails then
    { result := none, queried := true, connOpened := true, connClosed := false }
  else
    match (joinRows db mac).head? with
    | none => { result := none, queried := true, connOpened := true, connClosed := true }
    | some (d, r, c) =>
      { result := some (mkView d r c), queried := true, connOpened := true, connClosed := true }

/-! ### Concrete fixtures used by witnesses and counterexamples -/

/-- A store with one employee and otherwise empty tables. -/
def testDB : DB :=
  { employees := [(7, "tech01")], customers := [], orders := [], devices := [],
    ordLines := [], seqCustomer := 100, seqOrder := 200, seqDevice := 300, sysdate := 20250101 }

/-- An intake form with a single-token customer name and no email. -/
def dipinaForm : FormData :=
  [("mac_address", "9a:4b:7c:12:ff:09"), ("customer_name", "DIPINA")]

/-- An intake form whose site, hazard and status fields are present but blank. -/
def blankFieldsForm : FormData :=
  [("mac_address", "aa:bb"), ("customer_name", "James Smith"),
   ("dropoff_site", "  "), ("hazard_class", ""), ("status", " ")]

/-- An intake form carrying a customer email. -/
def emailForm : FormData :=
  [("mac_address", "11:22"), ("customer_name", "James Smith"),
   ("customer_email", "james@example.com")]

/-- A second intake form with the same customer email as `emailForm`. -/
def emailForm2 : FormData :=
  [("mac_address", "33:44"), ("customer_name", "Jim Smith"),
   ("customer_email", "james@example.com")]

/-- An intake form with no MAC address field at all. -/
def noMacForm : FormData :=
  [("customer_name", "James Smith")]

/-- The fault pattern in which only the QR artifact generation fails. -/
def qrFault : Faults := { noFaults with qrFails := true }

end LetsCycle

namespace LetsCycle

/-! ### Helper lemmas about the embedded operations -/

set_option maxHeartbeats 2000000 in
/-- Unfolding equation for the first-name placeholder of the normalization. -/
theorem normalizeForm_cust_first (form : FormData) :
    (normalizeForm form).cust_first =
      (if (split_customer_name ((normalizeForm form).customer_name)).1 = "" then "Unknown"
       else (split_customer_name ((normalizeForm form).customer_name)).1) := rfl

set_option maxHeartbeats 2000000 in
/-- Unfolding equation for the last-name placeholder of the normalization. -/
theorem normalizeForm_cust_last (form : FormData) :
    (normalizeForm form).cust_last =
      (if (split_customer_name ((normalizeForm form).customer_name)).2 = "" then "Customer"
       else (split_customer_name ((normalizeForm form).customer_name)).2) := rfl

/-- A fault-free customer resolution that finds an existing row by email
returns its key and leaves the store untouched. -/
theorem resolveCustomer_noFaults_found (cf cl email : String) (db : DB) (k : Nat)
    (he : email ≠ "") (hf : findCustByEmail db.customers email = some k) :
    resolveCustomer cf cl email noFaults db = .ok (k, db) := by
  simp [resolveCustomer, noFaults, he, hf]

/-- A fault-free customer resolution with no matching email row (in
particular any resolution with an empty email) draws the next customer key
and appends one new Customer row. -/
theorem resolveCustomer_noFaults_creates (cf cl email : String) (db : DB)
    (hf : findCustByEmail db.customers email = none) :
    resolveCustomer cf cl email noFaults db =
      .ok (db.seqCustomer + 1,
        { db with seqCustomer := db.seqCustomer + 1,
                  customers := db.customers ++ [⟨db.seqCustomer + 1, cf, cl, email⟩] }) := by
  by_cases he : email = "" <;> simp [resolveCustomer, noFaults, he, hf]

/-- Whatever branch customer resolution takes, it only ever touches the
Customer table and the customer sequence. -/
theorem resolveCustomer_ok_inv (cf cl email : String) (f : Faults) (db d : DB) (k : Nat)
    (h : resolveCustomer cf cl email f db = .ok (k, d)) :
    d.employees = db.employees ∧ d.orders = db.orders ∧ d.devices = db.devices ∧
    d.ordLines = db.ordLines ∧ d.seqOrder = db.seqOrder ∧ d.seqDevice = db.seqDevice ∧
    d.sysdate = db.sysdate := by
  unfold resolveCustomer at h
  split at h
  · exact absurd h (by simp)
  · split at h
    · obtain ⟨-, rfl⟩ : _ ∧ db = d := by simpa using h
      exact ⟨rfl, rfl, rfl, rfl, rfl, rfl, rfl⟩
    · split at h
      · exact absurd h (by simp)
      · split at h
        · exact absurd h (by simp)
        · obtain ⟨-, rfl⟩ : _ ∧ _ = d := by simpa using h
          exact ⟨rfl, rfl, rfl, rfl, rfl, rfl, rfl⟩

/-- The explicit outcome of the fault-free tail of the intake (order, QR,
device, order line, commit). -/
theorem registerTail_noFaults (n : NormForm) (emp_no cust_no : Nat) (dbc : DB) :
    registerTail n emp_no cust_no noFaults dbc =
      .ok (⟨dbc.seqDevice + 1, toString (dbc.seqDevice + 1) ++ ".png", n.mac_addr⟩,
        { dbc with
          seqOrder := dbc.seqOrder + 1
          seqDevice := dbc.seqDevice + 1
          orders := dbc.orders ++ [⟨dbc.seqOrder + 1, dbc.sysdate, cust_no, emp_no, n.dropoff_site⟩]
          devices := dbc.devices ++ [⟨dbc.seqDevice + 1, n.device_type, n.make, n.model, n.serial_no,
            toString (dbc.seqDevice + 1) ++ ".png", n.mac_addr, n.hazard_class, n.weight_kg,
            n.status, cust_no⟩]
          ordLines := dbc.ordLines ++ [⟨dbc.seqOrder + 1, 1, dbc.seqDevice + 1, "Recycle", 1, n.notes⟩] }) :=
  rfl

/-- The explicit outcome of a fault-free intake, given how the employee and
customer resolve. -/
theorem register_run_eq (form : FormData) (u : String) (db : DB) (emp_no cust_no : Nat) (dbc : DB)
    (hemp : findEmp db.employees u = some emp_no)
    (hres : resolveCustomer (normalizeForm form).cust_first (normalizeForm form).cust_last
      (normalizeForm form).customer_email noFaults db = .ok (cust_no, dbc)) :
    register_device_with_order form u noFaults db =
      { result := RegResult.ok ⟨dbc.seqDevice + 1, toString (dbc.seqDevice + 1) ++ ".png",
          (normalizeForm form).mac_addr⟩,
        db := { dbc with
          seqOrder := dbc.seqOrder + 1
          seqDevice := dbc.seqDevice + 1
          orders := dbc.orders ++ [⟨dbc.seqOrder + 1, dbc.sysdate, cust_no, emp_no,
            (normalizeForm form).dropoff_site⟩]
          devices := dbc.devices ++ [⟨dbc.seqDevice + 1, (normalizeForm form).device_type,
            (normalizeForm form).make, (normalizeForm form).model, (normalizeForm form).serial_no,
            toString (dbc.seqDevice + 1) ++ ".png", (normalizeForm form).mac_addr,
            (normalizeForm form).hazard_class, (normalizeForm form).weight_kg,
            (normalizeForm form).status, cust_no⟩]
          ordLines := dbc.ordLines ++ [⟨dbc.seqOrder + 1, 1, dbc.seqDevice + 1, "Recycle", 1,
            (normalizeForm form).notes⟩] },
        connOpened := true, connClosed := true } := by
  unfold register_device_with_order registerAttempt
  simp [show noFaults.connectFails = false from rfl,
    show noFaults.failEmpSelect = false from rfl, hemp, hres, registerTail_noFaults]

/-- Appending one customer to a list in which no row matches the email makes
the lookup hit exactly on the appended row. -/
theorem findCustByEmail_append (l : List Customer) (c : Customer) (e : String)
    (h : findCustByEmail l e = none) :
    findCustByEmail (l ++ [c]) e = if c.custEmail = e then some c.custNo else none := by
  induction l with
  | nil => rfl
  | cons a l ih =>
    have hif : (if a.custEmail = e then some a.custNo else findCustByEmail l e) = none := h
    have ha : ¬(a.custEmail = e) := by
      intro hae
      rw [if_pos hae] at hif
      exact Option.noConfusion hif
    rw [if_neg ha] at hif
    rw [List.cons_append]
    show (if a.custEmail = e then some a.custNo else findCustByEmail (l ++ [c]) e) = _
    rw [if_neg ha]
    exact ih hif

/-- A fault-free intake with an empty customer email always creates a new
customer row: the email select is skipped entirely. -/
theorem resolveCustomer_noFaults_anon (cf cl : String) (db : DB) :
    resolveCustomer cf cl "" noFaults db =
      .ok (db.seqCustomer + 1,
        { db with seqCustomer := db.seqCustomer + 1,
                  customers := db.customers ++ [⟨db.seqCustomer + 1, cf, cl, ""⟩] }) := by
  simp [resolveCustomer, noFaults]

/-- A fault-free customer resolution always succeeds. -/
theorem resolveCustomer_noFaults_ok (cf cl email : String) (db : DB) :
    ∃ k dbc, resolveCustomer cf cl email noFaults db = .ok (k, dbc) := by
  by_cases he : email = ""
  · subst he
    exact ⟨_, _, resolveCustomer_noFaults_anon cf cl db⟩
  · cases hf : findCustByEmail db.customers email with
    | some k => exact ⟨_, _, resolveCustomer_noFaults_found cf cl email db k he hf⟩
    | none => exact ⟨_, _, resolveCustomer_noFaults_creates cf cl email db hf⟩

/-- Every intake run either returns the success dictionary, or reports an
error while leaving all four tables exactly as before the call. -/
theorem register_rows_preserved_on_error (form : FormData) (u : String) (f : Faults) (db : DB) :
    (∃ s, (register_device_with_order form u f db).result = RegResult.ok s) ∨
    ((register_device_with_order form u f db).db.customers = db.customers ∧
     (register_device_with_order form u f db).db.orders = db.orders ∧
     (register_device_with_order form u f db).db.devices = db.devices ∧
     (register_device_with_order form u f db).db.ordLines = db.ordLines ∧
     ∃ msg, (register_device_with_order form u f db).result = RegResult.error msg) := by
  simp only [register_device_with_order]
  split
  · exact Or.inr ⟨rfl, rfl, rfl, rfl, _, rfl⟩
  · split
    · exact Or.inr ⟨rfl, rfl, rfl, rfl, _, rfl⟩
    · exact Or.inl ⟨_, rfl⟩

/-- Whenever the intake opened its connection, the finally block closed it. -/
theorem register_conn_released (form : FormData) (u : String) (f : Faults) (db : DB) :
    (register_device_with_order form u f db).connOpened = true →
    (register_device_with_order form u f db).connClosed = true := by
  simp only [register_device_with_order]
  split
  · exact fun h => h
  · split
    · exact fun _ => rfl
    · exact fun _ => rfl

/-- Without a store error, the lookup closes its connection whenever it
opened one. -/
theorem lookup_conn_released_no_error (m : String) (db : DB) (cf : Bool) :
    (get_device_by_mac m db cf false).connOpened = true →
    (get_device_by_mac m db cf false).connClosed = true := by
  by_cases hm : strip m = ""
  · simp [get_device_by_mac, hm]
  · cases cf with
    | true => simp [get_device_by_mac, hm]
    | false =>
      cases hj : (joinRows db (strip m)).head? with
      | none => simp [get_device_by_mac, hm, hj]
      | some x =>
        obtain ⟨d, r, c⟩ := x
        simp [get_device_by_mac, hm, hj]

/-- When the SELECT raises after the connection was opened, the lookup
swallows the error but returns with the connection still open. -/
theorem lookup_leaks_on_store_error (m : String) (db : DB) (h : ¬(strip m = "")) :
    get_device_by_mac m db false true = ⟨none, true, true, false⟩ := by
  simp [get_device_by_mac, h]

/-- A blank (trimmed-empty) MAC returns absent before any store access. -/
theorem lookup_blank_mac (m : String) (db : DB) (cf sf : Bool) (h : strip m = "") :
    get_device_by_mac m db cf sf = ⟨none, false, false, false⟩ := by
  simp [get_device_by_mac, h]

/-- When the join produces no rows, the lookup returns absent. -/
theorem lookup_no_match (m : String) (db : DB) (hj : joinRows db (strip m) = []) :
    (get_device_by_mac m db false false).result = none := by
  by_cases h : strip m = ""
  · simp [get_device_by_mac, h]
  · simp [get_device_by_mac, h, hj]

/-- No device row carries the searched MAC: the join is empty. -/
theorem joinRows_no_mac (db : DB) (mac : String)
    (h : ∀ d ∈ db.devices, ¬(d.iotMacAddr = mac)) :
    joinRows db mac = [] := by
  have hfil : db.devices.filter (fun d => d.iotMacAddr = mac) = [] := by
    rw [List.filter_eq_nil_iff]
    intro a ha
    simpa using h a ha
  unfold joinRows
  rw [hfil]
  rfl

/-- A store in which every device has an empty MAC can never answer a
lookup: the result is absent for every input and every fault pattern. -/
theorem lookup_never_finds_empty_mac (m : String) (db : DB) (cf sf : Bool)
    (h : ∀ d ∈ db.devices, d.iotMacAddr = "") :
    (get_device_by_mac m db cf sf).result = none := by
  by_cases hm : strip m = ""
  · rw [lookup_blank_mac m db cf sf hm]
  · have hj : joinRows db (strip m) = [] := by
      apply joinRows_no_mac
      intro d hd he
      exact hm (by rw [← he]; exact h d hd)
    cases cf with
    | true => simp [get_device_by_mac, hm]
    | false =>
      cases sf with
      | true => simp [get_device_by_mac, hm]
      | false => simp [get_device_by_mac, hm, hj]

/-! ### Claims -/

/-- C1 counterexample: registering with the single-token name "DIPINA"
stores the customer row ("DIPINA", "Customer"), not ("DIPINA", "") as the
claim states. -/
theorem c1_counterexample_single_token :
    (register_device_with_order dipinaForm "tech01" noFaults testDB).db.customers.map
      (fun c => (c.custFirstName, c.custLastName)) = [("DIPINA", "Customer")] ∧
    ¬((register_device_with_order dipinaForm "tech01" noFaults testDB).db.customers.map
      (fun c => (c.custFirstName, c.custLastName)) = [("DIPINA", "")]) := by
  constructor <;> decide

/-- C1 (amended): for every intake whose customer name trims to exactly one
whitespace-delimited token and which creates a new customer row, the intake
stores the token as the first name and the placeholder "Customer" — not the
empty string — as the last name. -/
theorem c1_single_token_last_name_placeholder (form : FormData) (u : String) (db : DB)
    (emp_no : Nat) (t : String)
    (hemp : findEmp db.employees u = some emp_no)
    (hnone : findCustByEmail db.customers (normalizeForm form).customer_email = none)
    (hsplit : split_customer_name (normalizeForm form).customer_name = (t, ""))
    (ht : ¬(t = "")) :
    (∃ s, (register_device_with_order form u noFaults db).result = RegResult.ok s) ∧
    (register_device_with_order form u noFaults db).db.customers =
      db.customers ++ [⟨db.seqCustomer + 1, t, "Customer", (normalizeForm form).customer_email⟩] := by
  have hfst : (normalizeForm form).cust_first = t := by
    rw [normalizeForm_cust_first, hsplit]
    simp [ht]
  have hlst : (normalizeForm form).cust_last = "Customer" := by
    rw [normalizeForm_cust_last, hsplit]
    simp
  have hres := resolveCustomer_noFaults_creates (normalizeForm form).cust_first
    (normalizeForm form).cust_last (normalizeForm form).customer_email db hnone
  rw [register_run_eq form u db emp_no _ _ hemp hres]
  refine ⟨⟨_, rfl⟩, ?_⟩
  simp [hfst, hlst]

/-- C1 witness: the amended statement at the concrete "DIPINA" intake. -/
theorem c1_witness :
    (register_device_with_order dipinaForm "tech01" noFaults testDB).db.customers =
      testDB.customers ++ [⟨101, "DIPINA", "Customer", ""⟩] :=
  (c1_single_token_last_name_placeholder dipinaForm "tech01" testDB 7 "DIPINA"
    (by decide) (by decide) (by decide) (by decide)).2

/-- C2 counterexample: with drop-off site, hazard class and status present
but blank, the stored order and device keep the blank values, not the
configured defaults "Main Facility"/"Medium"/"Received". -/
theorem c2_counterexample_blank_fields :
    ((register_device_with_order blankFieldsForm "tech01" noFaults testDB).db.orders.map
      (fun o => o.dropOffSite) = [""] ∧
     (register_device_with_order blankFieldsForm "tech01" noFaults testDB).db.devices.map
      (fun d => (d.hazardClass, d.status)) = [("", "")]) ∧
    ¬("" = "Main Facility") ∧ ¬("" = "Medium") ∧ ¬("" = "Received") := by
  refine ⟨⟨?_, ?_⟩, ?_, ?_, ?_⟩ <;> decide

/-- C2 (amended): in any fault-free intake whose caller resolves, the stored
drop-off site, hazard class and status are the trimmed submitted values
whenever the field is present — so a present-but-blank field is stored as
the empty string — and the configured defaults "Main Facility", "Medium",
"Received" apply only when the field is absent from the form. -/
theorem c2_defaults_only_when_absent (form : FormData) (u : String) (db : DB) (emp_no : Nat)
    (hemp : findEmp db.employees u = some emp_no) :
    (∃ o, (register_device_with_order form u noFaults db).db.orders = db.orders ++ [o] ∧
      o.dropOffSite = strip (form.get "dropoff_site" "Main Facility")) ∧
    (∃ d, (register_device_with_order form u noFaults db).db.devices = db.devices ++ [d] ∧
      d.hazardClass = strip (form.get "hazard_class" "Medium") ∧
      d.status = strip (form.get "status" "Received")) ∧
    (List.lookup "dropoff_site" form = none →
      strip (form.get "dropoff_site" "Main Facility") = "Main Facility") ∧
    (List.lookup "hazard_class" form = none →
      strip (form.get "hazard_class" "Medium") = "Medium") ∧
    (List.lookup "status" form = none →
      strip (form.get "status" "Received") = "Received") := by
  obtain ⟨k, dbc, hres⟩ := resolveCustomer_noFaults_ok (normalizeForm form).cust_first
    (normalizeForm form).cust_last (normalizeForm form).customer_email db
  obtain ⟨-, hO, hD, -, -, -, -⟩ := resolveCustomer_ok_inv _ _ _ _ _ _ _ hres
  rw [register_run_eq form u db emp_no k dbc hemp hres]
  refine ⟨⟨⟨dbc.seqOrder + 1, dbc.sysdate, k, emp_no, (normalizeForm form).dropoff_site⟩,
      by simp [hO], rfl⟩,
    ⟨⟨dbc.seqDevice + 1, (normalizeForm form).device_type, (normalizeForm form).make,
      (normalizeForm form).model, (normalizeForm form).serial_no,
      toString (dbc.seqDevice + 1) ++ ".png", (normalizeForm form).mac_addr,
      (normalizeForm form).hazard_class, (normalizeForm form).weight_kg,
      (normalizeForm form).status, k⟩, by simp [hD], rfl, rfl⟩, ?_, ?_, ?_⟩
  · intro h
    have hv : form.get "dropoff_site" "Main Facility" = "Main Facility" := by
      unfold FormData.get
      rw [h]
    rw [hv]
    decide
  · intro h
    have hv : form.get "hazard_class" "Medium" = "Medium" := by
      unfold FormData.get
      rw [h]
    rw [hv]
    decide
  · intro h
    have hv : form.get "status" "Received" = "Received" := by
      unfold FormData.get
      rw [h]
    rw [hv]
    decide

/-- C2 witness: the amended statement at a concrete intake whose three
fields are present but blank. -/
theorem c2_witness :
    ∃ o, (register_device_with_order blankFieldsForm "tech01" noFaults testDB).db.orders =
      testDB.orders ++ [o] ∧
      o.dropOffSite = strip (blankFieldsForm.get "dropoff_site" "Main Facility") :=
  (c2_defaults_only_when_absent blankFieldsForm "tech01" testDB 7 (by decide)).1

/-- C3 counterexample: a lookup hit by a store error after opening its
connection returns with the connection still open — not released on that
exit path, contrary to the claim. -/
theorem c3_counterexample_lookup_leak :
    (get_device_by_mac "aa:bb" testDB false true).connOpened = true ∧
    ¬((get_device_by_mac "aa:bb" testDB false true).connClosed = true) := by
  constructor <;> decide

/-- C3 (amended): the intake releases its connection on every exit path, and
the lookup releases it on every path without a store error (success,
no-match, blank input); but when the lookup query raises after the
connection was opened, the lookup returns absent with the connection left
open. -/
theorem c3_conn_release_except_lookup_store_error :
    (∀ (form : FormData) (u : String) (f : Faults) (db : DB),
      (register_device_with_order form u f db).connOpened = true →
      (register_device_with_order form u f db).connClosed = true) ∧
    (∀ (m : String) (db : DB) (cf : Bool),
      (get_device_by_mac m db cf false).connOpened = true →
      (get_device_by_mac m db cf false).connClosed = true) ∧
    (∀ (m : String) (db : DB), ¬(strip m = "") →
      (get_device_by_mac m db false true).connOpened = true ∧
      (get_device_by_mac m db false true).connClosed = false) := by
  refine ⟨register_conn_released, lookup_conn_released_no_error, fun m db h => ?_⟩
  rw [lookup_leaks_on_store_error m db h]
  exact ⟨rfl, rfl⟩

/-- C3 witness: the leak clause of the amended statement at a concrete
store-error lookup. -/
theorem c3_witness :
    (get_device_by_mac "aa:bb" testDB false true).connOpened = true ∧
    (get_device_by_mac "aa:bb" testDB false true).connClosed = false :=
  c3_conn_release_except_lookup_store_error.2.2 "aa:bb" testDB (by decide)

/-- C4: any failing intake — unknown caller, any injected store fault, or
artifact-generation failure — propagates the error, and afterwards all four
tables hold exactly the rows they held before the call. -/
theorem c4_failure_rolls_back (form : FormData) (u : String) (f : Faults) (db : DB)
    (msg : String)
    (h : (register_device_with_order form u f db).result = RegResult.error msg) :
    (register_device_with_order form u f db).db.customers = db.customers ∧
    (register_device_with_order form u f db).db.orders = db.orders ∧
    (register_device_with_order form u f db).db.devices = db.devices ∧
    (register_device_with_order form u f db).db.ordLines = db.ordLines := by
  rcases register_rows_preserved_on_error form u f db with ⟨s, hs⟩ | ⟨h1, h2, h3, h4, -⟩
  · rw [hs] at h
    exact RegResult.noConfusion h
  · exact ⟨h1, h2, h3, h4⟩

/-- C4 witness: an intake whose QR artifact generation fails rolls back
every table. -/
theorem c4_witness :
    (register_device_with_order dipinaForm "tech01" qrFault testDB).db.customers = testDB.customers ∧
    (register_device_with_order dipinaForm "tech01" qrFault testDB).db.orders = testDB.orders ∧
    (register_device_with_order dipinaForm "tech01" qrFault testDB).db.devices = testDB.devices ∧
    (register_device_with_order dipinaForm "tech01" qrFault testDB).db.ordLines = testDB.ordLines :=
  c4_failure_rolls_back dipinaForm "tech01" qrFault testDB "qr" (by decide)

/-- C5 counterexample: two successful intakes submit the same MAC address;
afterwards two distinct device rows (keys 301 and 302) share that MAC, so no
MAC uniqueness is enforced by the intake. -/
theorem c5_counterexample_duplicate_mac :
    (register_device_with_order dipinaForm "tech01" noFaults
        (register_device_with_order dipinaForm "tech01" noFaults testDB).db).db.devices.map
      (fun d => (d.deviceID, d.iotMacAddr)) =
      [(301, "9a:4b:7c:12:ff:09"), (302, "9a:4b:7c:12:ff:09")] ∧
    (∃ s, (register_device_with_order dipinaForm "tech01" noFaults
        (register_device_with_order dipinaForm "tech01" noFaults testDB).db).result =
      RegResult.ok s) := by
  refine ⟨by decide, ⟨⟨302, "302.png", "9a:4b:7c:12:ff:09"⟩, by decide⟩⟩

/-- C5 (amended): the intake performs no application-level MAC uniqueness
check: a fault-free intake whose caller resolves always succeeds and appends
a device row carrying the submitted trimmed MAC, with no precondition on the
MACs already stored — hence repeated intakes with one MAC yield several
device rows sharing it. -/
theorem c5_no_mac_uniqueness_check (form : FormData) (u : String) (db : DB) (emp_no : Nat)
    (hemp : findEmp db.employees u = some emp_no) :
    (∃ s, (register_device_with_order form u noFaults db).result = RegResult.ok s) ∧
    (∃ d, (register_device_with_order form u noFaults db).db.devices = db.devices ++ [d] ∧
      d.iotMacAddr = strip (form.get "mac_address" "")) := by
  obtain ⟨k, dbc, hres⟩ := resolveCustomer_noFaults_ok (normalizeForm form).cust_first
    (normalizeForm form).cust_last (normalizeForm form).customer_email db
  obtain ⟨-, -, hD, -, -, -, -⟩ := resolveCustomer_ok_inv _ _ _ _ _ _ _ hres
  rw [register_run_eq form u db emp_no k dbc hemp hres]
  exact ⟨⟨_, rfl⟩, ⟨⟨dbc.seqDevice + 1, (normalizeForm form).device_type, (normalizeForm form).make,
    (normalizeForm form).model, (normalizeForm form).serial_no,
    toString (dbc.seqDevice + 1) ++ ".png", (normalizeForm form).mac_addr,
    (normalizeForm form).hazard_class, (normalizeForm form).weight_kg,
    (normalizeForm form).status, k⟩, by simp [hD], rfl⟩⟩

/-- C5 witness: the amended statement at a concrete intake over a store that
already holds that MAC. -/
theorem c5_witness :
    ∃ d, (register_device_with_order dipinaForm "tech01" noFaults
        (register_device_with_order dipinaForm "tech01" noFaults testDB).db).db.devices =
      (register_device_with_order dipinaForm "tech01" noFaults testDB).db.devices ++ [d] ∧
      d.iotMacAddr = strip (dipinaForm.get "mac_address" "") :=
  (c5_no_mac_uniqueness_check dipinaForm "tech01"
    (register_device_with_order dipinaForm "tech01" noFaults testDB).db 7 (by decide)).2

/-- C6: two sequential fault-free intakes with the same non-empty customer
email yield exactly one new Customer row: the second intake reuses the
first-created key and writes no Customer row, while still producing two
distinct orders (both owned by that customer) and two distinct devices. -/
theorem c6_email_dedup_single_customer (form1 form2 : FormData) (u : String) (db : DB)
    (emp_no : Nat) (e : String)
    (hemp : findEmp db.employees u = some emp_no)
    (he : ¬(e = ""))
    (h1 : (normalizeForm form1).customer_email = e)
    (h2 : (normalizeForm form2).customer_email = e)
    (hnone : findCustByEmail db.customers e = none) :
    (∃ s1, (register_device_with_order form1 u noFaults db).result = RegResult.ok s1) ∧
    (∃ s2, (register_device_with_order form2 u noFaults
        (register_device_with_order form1 u noFaults db).db).result = RegResult.ok s2) ∧
    ((register_device_with_order form2 u noFaults
        (register_device_with_order form1 u noFaults db).db).db.customers =
      db.customers ++ [⟨db.seqCustomer + 1, (normalizeForm form1).cust_first,
        (normalizeForm form1).cust_last, e⟩]) ∧
    (∃ o1 o2, (register_device_with_order form2 u noFaults
        (register_device_with_order form1 u noFaults db).db).db.orders = db.orders ++ [o1, o2] ∧
      ¬(o1.ordNo = o2.ordNo) ∧ o1.custNo = db.seqCustomer + 1 ∧ o2.custNo = db.seqCustomer + 1) ∧
    (∃ d1 d2, (register_device_with_order form2 u noFaults
        (register_device_with_order form1 u noFaults db).db).db.devices = db.devices ++ [d1, d2] ∧
      ¬(d1.deviceID = d2.deviceID)) := by
  have hc1 : resolveCustomer (normalizeForm form1).cust_first (normalizeForm form1).cust_last
      (normalizeForm form1).customer_email noFaults db =
      .ok (db.seqCustomer + 1,
        { db with seqCustomer := db.seqCustomer + 1,
                  customers := db.customers ++ [⟨db.seqCustomer + 1, (normalizeForm form1).cust_first,
                    (normalizeForm form1).cust_last, (normalizeForm form1).customer_email⟩] }) :=
    resolveCustomer_noFaults_creates _ _ _ db (by rw [h1]; exact hnone)
  have hrun1 := register_run_eq form1 u db emp_no _ _ hemp hc1
  have hemp2 : findEmp (register_device_with_order form1 u noFaults db).db.employees u
      = some emp_no := by
    rw [hrun1]
    exact hemp
  have hfind2 : findCustByEmail (register_device_with_order form1 u noFaults db).db.customers e
      = some (db.seqCustomer + 1) := by
    rw [hrun1]
    show findCustByEmail (db.customers ++ [⟨db.seqCustomer + 1, (normalizeForm form1).cust_first,
      (normalizeForm form1).cust_last, (normalizeForm form1).customer_email⟩]) e
      = some (db.seqCustomer + 1)
    rw [findCustByEmail_append _ _ _ hnone]
    simp [h1]
  have hc2 : resolveCustomer (normalizeForm form2).cust_first (normalizeForm form2).cust_last
      (normalizeForm form2).customer_email noFaults
      (register_device_with_order form1 u noFaults db).db =
      .ok (db.seqCustomer + 1, (register_device_with_order form1 u noFaults db).db) :=
    resolveCustomer_noFaults_found _ _ _ _ _ (by rw [h2]; exact he) (by rw [h2]; exact hfind2)
  have hrun2 := register_run_eq form2 u (register_device_with_order form1 u noFaults db).db
    emp_no _ _ hemp2 hc2
  refine ⟨?_, ?_, ?_, ?_, ?_⟩
  · rw [hrun1]
    exact ⟨_, rfl⟩
  · rw [hrun2]
    exact ⟨_, rfl⟩
  · rw [hrun2, hrun1]
    simp [h1]
  · refine ⟨⟨db.seqOrder + 1, db.sysdate, db.seqCustomer + 1, emp_no,
        (normalizeForm form1).dropoff_site⟩,
      ⟨db.seqOrder + 1 + 1, db.sysdate, db.seqCustomer + 1, emp_no,
        (normalizeForm form2).dropoff_site⟩, ?_, by simp, rfl, rfl⟩
    rw [hrun2, hrun1]
    simp
  · refine ⟨⟨db.seqDevice + 1, (normalizeForm form1).device_type, (normalizeForm form1).make,
        (normalizeForm form1).model, (normalizeForm form1).serial_no,
        toString (db.seqDevice + 1) ++ ".png", (normalizeForm form1).mac_addr,
        (normalizeForm form1).hazard_class, (normalizeForm form1).weight_kg,
        (normalizeForm form1).status, db.seqCustomer + 1⟩,
      ⟨db.seqDevice + 1 + 1, (normalizeForm form2).device_type, (normalizeForm form2).make,
        (normalizeForm form2).model, (normalizeForm form2).serial_no,
        toString (db.seqDevice + 1 + 1) ++ ".png", (normalizeForm form2).mac_addr,
        (normalizeForm form2).hazard_class, (normalizeForm form2).weight_kg,
        (normalizeForm form2).status, db.seqCustomer + 1⟩, ?_, by simp⟩
    rw [hrun2, hrun1]
    simp

/-- C6 witness: the single-customer clause at two concrete intakes sharing
one email. -/
theorem c6_witness :
    (register_device_with_order emailForm2 "tech01" noFaults
        (register_device_with_order emailForm "tech01" noFaults testDB).db).db.customers =
      testDB.customers ++ [⟨testDB.seqCustomer + 1, (normalizeForm emailForm).cust_first,
        (normalizeForm emailForm).cust_last, "james@example.com"⟩] :=
  (c6_email_dedup_single_customer emailForm emailForm2 "tech01" testDB 7 "james@example.com"
    (by decide) (by decide) (by decide) (by decide) (by decide)).2.2.1

/-- C7: two sequential fault-free intakes with empty customer email and
identical name fields create two distinct Customer rows (distinct keys):
an empty email never deduplicates against a prior anonymous customer. -/
theorem c7_anonymous_never_dedups (form1 form2 : FormData) (u : String) (db : DB)
    (emp_no : Nat)
    (hemp : findEmp db.employees u = some emp_no)
    (h1 : (normalizeForm form1).customer_email = "")
    (h2 : (normalizeForm form2).customer_email = "")
    (_hname : (normalizeForm form1).customer_name = (normalizeForm form2).customer_name) :
    (∃ s1, (register_device_with_order form1 u noFaults db).result = RegResult.ok s1) ∧
    (∃ s2, (register_device_with_order form2 u noFaults
        (register_device_with_order form1 u noFaults db).db).result = RegResult.ok s2) ∧
    (register_device_with_order form2 u noFaults
        (register_device_with_order form1 u noFaults db).db).db.customers =
      db.customers ++
        [⟨db.seqCustomer + 1, (normalizeForm form1).cust_first,
          (normalizeForm form1).cust_last, ""⟩,
         ⟨db.seqCustomer + 1 + 1, (normalizeForm form2).cust_first,
          (normalizeForm form2).cust_last, ""⟩] ∧
    ¬(db.seqCustomer + 1 = db.seqCustomer + 1 + 1) := by
  have hc1 := resolveCustomer_noFaults_anon (normalizeForm form1).cust_first
    (normalizeForm form1).cust_last db
  rw [← h1] at hc1
  have hrun1 := register_run_eq form1 u db emp_no _ _ hemp hc1
  have hemp2 : findEmp (register_device_with_order form1 u noFaults db).db.employees u
      = some emp_no := by
    rw [hrun1]
    exact hemp
  have hc2 := resolveCustomer_noFaults_anon (normalizeForm form2).cust_first
    (normalizeForm form2).cust_last (register_device_with_order form1 u noFaults db).db
  rw [← h2] at hc2
  have hrun2 := register_run_eq form2 u (register_device_with_order form1 u noFaults db).db
    emp_no _ _ hemp2 hc2
  refine ⟨?_, ?_, ?_, by omega⟩
  · rw [hrun1]
    exact ⟨_, rfl⟩
  · rw [hrun2]
    exact ⟨_, rfl⟩
  · rw [hrun2, hrun1]
    simp [h1, h2]

/-- C7 witness: the second of two identical anonymous intakes also succeeds
(and, by the theorem, creates its own Customer row). -/
theorem c7_witness :
    ∃ s2, (register_device_with_order dipinaForm "tech01" noFaults
        (register_device_with_order dipinaForm "tech01" noFaults testDB).db).result =
      RegResult.ok s2 :=
  (c7_anonymous_never_dedups dipinaForm dipinaForm "tech01" testDB 7
    (by decide) (by decide) (by decide) (by decide)).2.1

/-- C8: the lookup trims its input; blank input answers absent without
querying the store; an empty join answers absent; a store error (at connect
or at the query) answers absent; the lookup is a total function into an
optional view and so never raises to its caller. -/
theorem c8_lookup_absent_never_raises (m : String) (db : DB) :
    ((strip m = "") → ∀ cf sf, get_device_by_mac m db cf sf = ⟨none, false, false, false⟩) ∧
    (joinRows db (strip m) = [] → (get_device_by_mac m db false false).result = none) ∧
    ((¬(strip m = "")) → (get_device_by_mac m db false true).result = none) ∧
    ((get_device_by_mac m db true false).result = none) := by
  refine ⟨fun h cf sf => lookup_blank_mac m db cf sf h, lookup_no_match m db, ?_, ?_⟩
  · intro h
    rw [lookup_leaks_on_store_error m db h]
  · by_cases hm : strip m = ""
    · rw [lookup_blank_mac m db true false hm]
    · simp [get_device_by_mac, hm]

/-- C8 witness: the statement at a concrete blank input over the test
store. -/
theorem c8_witness :
    (strip "  " = "") ∧
    ((strip "  " = "") → ∀ cf sf, get_device_by_mac "  " testDB cf sf = ⟨none, false, false, false⟩) :=
  ⟨by decide, (c8_lookup_absent_never_raises "  " testDB).1⟩

/-- C9: the stored device weight is exactly the coerced weight field:
"2.5" is stored as 2.5, while "", "abc" and an absent weight field are
stored as 1.0; the coercion is total, so it never aborts the intake, which
succeeds. -/
theorem c9_weight_coercion (form : FormData) (u : String) (db : DB) (emp_no : Nat)
    (hemp : findEmp db.employees u = some emp_no) :
    (∃ s, (register_device_with_order form u noFaults db).result = RegResult.ok s) ∧
    (∃ d, (register_device_with_order form u noFaults db).db.devices = db.devices ++ [d] ∧
      d.weightKg = parse_weight (form.get "weight_kg" "1.0") 1) ∧
    parse_weight "2.5" 1 = 5 / 2 ∧
    parse_weight "" 1 = 1 ∧
    parse_weight "abc" 1 = 1 ∧
    (∀ fd : FormData, List.lookup "weight_kg" fd = none →
      parse_weight (fd.get "weight_kg" "1.0") 1 = 1) := by
  obtain ⟨k, dbc, hres⟩ := resolveCustomer_noFaults_ok (normalizeForm form).cust_first
    (normalizeForm form).cust_last (normalizeForm form).customer_email db
  obtain ⟨-, -, hD, -, -, -, -⟩ := resolveCustomer_ok_inv _ _ _ _ _ _ _ hres
  rw [register_run_eq form u db emp_no k dbc hemp hres]
  refine ⟨⟨_, rfl⟩, ⟨⟨dbc.seqDevice + 1, (normalizeForm form).device_type, (normalizeForm form).make,
    (normalizeForm form).model, (normalizeForm form).serial_no,
    toString (dbc.seqDevice + 1) ++ ".png", (normalizeForm form).mac_addr,
    (normalizeForm form).hazard_class, (normalizeForm form).weight_kg,
    (normalizeForm form).status, k⟩, by simp [hD], rfl⟩, ?_, by decide, by decide, ?_⟩
  · have h1 : parse_weight "2.5" 1 = mkRat 5 2 := by decide
    rw [h1, Rat.mkRat_eq_div]
    norm_num
  · intro fd h
    have hv : fd.get "weight_kg" "1.0" = "1.0" := by
      unfold FormData.get
      rw [h]
    rw [hv]
    decide

/-- C9 witness: the weight clause instantiated through a concrete intake. -/
theorem c9_witness :
    parse_weight "2.5" 1 = 5 / 2 :=
  (c9_weight_coercion dipinaForm "tech01" testDB 7 (by decide)).2.2.1

/-- C10: an intake whose MAC field is absent or blank is not rejected: it
succeeds and stores a device row whose MAC is the empty string; and such a
device can never be returned by the lookup — blank lookup input answers
absent before querying, and over a store whose devices all have empty MACs
every lookup answers absent. -/
theorem c10_blank_mac_intake_succeeds (form : FormData) (u : String) (db : DB) (emp_no : Nat)
    (hemp : findEmp db.employees u = some emp_no)
    (hmac : strip (form.get "mac_address" "") = "") :
    (∃ s, (register_device_with_order form u noFaults db).result = RegResult.ok s) ∧
    (∃ d, (register_device_with_order form u noFaults db).db.devices = db.devices ++ [d] ∧
      d.iotMacAddr = "") ∧
    (∀ (m : String) (db2 : DB) (cf sf : Bool), strip m = "" →
      get_device_by_mac m db2 cf sf = ⟨none, false, false, false⟩) ∧
    (∀ (m : String) (db2 : DB) (cf sf : Bool), (∀ d ∈ db2.devices, d.iotMacAddr = "") →
      (get_device_by_mac m db2 cf sf).result = none) := by
  obtain ⟨k, dbc, hres⟩ := resolveCustomer_noFaults_ok (normalizeForm form).cust_first
    (normalizeForm form).cust_last (normalizeForm form).customer_email db
  obtain ⟨-, -, hD, -, -, -, -⟩ := resolveCustomer_ok_inv _ _ _ _ _ _ _ hres
  rw [register_run_eq form u db emp_no k dbc hemp hres]
  refine ⟨⟨_, rfl⟩, ⟨⟨dbc.seqDevice + 1, (normalizeForm form).device_type, (normalizeForm form).make,
    (normalizeForm form).model, (normalizeForm form).serial_no,
    toString (dbc.seqDevice + 1) ++ ".png", (normalizeForm form).mac_addr,
    (normalizeForm form).hazard_class, (normalizeForm form).weight_kg,
    (normalizeForm form).status, k⟩, by simp [hD], ?_⟩,
    fun m db2 cf sf h => lookup_blank_mac m db2 cf sf h,
    fun m db2 cf sf h => lookup_never_finds_empty_mac m db2 cf sf h⟩
  show (normalizeForm form).mac_addr = ""
  exact hmac

/-- C10 witness: the statement at a concrete intake with no MAC field. -/
theorem c10_witness :
    ∃ s, (register_device_with_order noMacForm "tech01" noFaults testDB).result = RegResult.ok s :=
  (c10_blank_mac_intake_succeeds noMacForm "tech01" testDB 7 (by decide) (by decide)).1

end LetsCycle
